import Mathlib

/-!
Verification development for the syndra repository (graph-rewriting-rule
predicate language lowered to a satisfiability oracle).

Shallow embedding of the two source files:
  * `src/l_to_z3/atomic_predicate.py` — the leaf catalogue where each
    `AtomicPredicate` owns its own solving session;
  * `src/new_engine/predicate.py` — the pure combinator engine whose nodes
    compile to formulas.

Machine-level conventions of the embedding:
  * Python exceptions are represented with `Except PyErr`.
  * z3 values are represented by their observable content: a z3 expression of
    the `Variable` datatype built as `Variable.variable(IntVal(n))` is the tag
    `n`; formulas are a syntax tree `Formula`.
  * Side effects on the z3 `Solver` are recorded as an explicit `SolverOp`
    trace, and the memoization state of an evaluator as an `EvalState` value.
-/

/-- z3 check results: `sat`, `unsat`, `unknown`. -/
inductive Status where
  | sat
  | unsat
  | unknown
deriving DecidableEq, Repr

/-- Python exceptions that the translated code can raise. -/
inductive PyErr where
  | valueError (msg : String)
  | typeError (msg : String)
  | attributeError (name : String)
  | z3Exception (msg : String)
deriving DecidableEq, Repr

/-- A Python value in an argument position where `atomic_predicate.py` expects
a z3 expression. `z3val s n` is a z3 expression of sort `s` whose concrete
content is the integer `n` (for the `Variable` sort, the expression
`Variable.variable(IntVal(n))` with tag `n`, as produced by the repository's
variable interner — spec 4.1). Values of other Python types (`pyint`,
`pystr`) have no `.sort()` attribute. -/
inductive Z3Sort where
  | variableSort
  | identifierSort
  | otherSort
deriving DecidableEq, Repr

inductive PyVal where
  | z3val (sort : Z3Sort) (tag : Int)
  | pyint (n : Int)
  | pystr (s : String)
deriving DecidableEq, Repr

/-- Formulas the compiled predicates produce (z3 Boolean expressions).
`lit b` is a Python `True` / `False` (coerced by z3 on `add`) or a `BoolVal`;
`conj` / `disj` / `neg` are `z3.And` / `z3.Or` / `z3.Not` (zero or more
arguments for the first two); `ruleInModel r` is the application
`model(r)` of the ambient model function to the rule constant tagged `r`;
`existsRule r f` is `z3.Exists([r], f)`. The remaining constructors are the
atoms the spec's leaf catalogue prescribes (spec 4.2), applied to the
interpretation of the variables with the given tags; they are used to state
what the relational leaves were documented to return. -/
inductive Formula where
  | lit (b : Bool)
  | conj (fs : List Formula)
  | disj (fs : List Formula)
  | neg (f : Formula)
  | ruleInModel (r : Nat)
  | existsRule (r : Nat) (f : Formula)
  | preParentsAtom (x y : Int)
  | postParentsAtom (x y : Int)
  | doParentAtom (x y : Int)
  | preLinksAtom (x y : Int)
  | postLinksAtom (x y : Int)
  | doLinkAtom (x y : Int)
  | doUnlinkAtom (x y : Int)
  | preHasAtom (x : Int)
  | postHasAtom (x : Int)
  | labelAtom (x : Int) (l : Int)

/-- Operations performed on a z3 `Solver` object, recorded as a trace. -/
inductive SolverOp where
  | newSolver
  | initModel
  | add (f : Formula)
  | check
  | readModel

mutual

/-- Whether a formula lies in the closed propositional fragment (the only
formulas the code below ever submits to the oracle). -/
def Formula.isProp : Formula → Bool
  | .lit _ => true
  | .conj fs => Formula.isPropList fs
  | .disj fs => Formula.isPropList fs
  | .neg f => f.isProp
  | _ => false

def Formula.isPropList : List Formula → Bool
  | [] => true
  | f :: fs => f.isProp && Formula.isPropList fs

end

mutual

/-- Truth value of a closed propositional formula (`conj` of all, `disj` of
any, Boolean negation). On constructors outside the propositional fragment
the value is unused: `oracleCheck` consults it only behind an `isProp`
guard. -/
def Formula.eval : Formula → Bool
  | .lit b => b
  | .conj fs => Formula.evalAll fs
  | .disj fs => Formula.evalAny fs
  | .neg f => !f.eval
  | _ => false

def Formula.evalAll : List Formula → Bool
  | [] => true
  | f :: fs => f.eval && Formula.evalAll fs

def Formula.evalAny : List Formula → Bool
  | [] => false
  | f :: fs => f.eval || Formula.evalAny fs

end

/-- Modelled from the spec: the external satisfiability oracle (z3, excluded
from the repository as an external collaborator, spec section 6). On a closed
propositional formula the oracle is complete: it answers `sat` exactly when
the formula evaluates to true and `unsat` exactly when it evaluates to false.
Outside that fragment the oracle may answer `unknown`; none of the claims
below submit such a formula, so this model maps them to `unknown`. -/
def oracleCheck (f : Formula) : Status :=
  if f.isProp then (if f.eval then Status.sat else Status.unsat)
  else Status.unknown

/-! ## src/l_to_z3/atomic_predicate.py -/

/-- The graph-action pair handed to `AtomicPredicate.__init__`. Its concrete
content (a `Model` from model.py, which is not under src/) never influences
the translated code paths: it is only passed to `initialize`, which the spec
describes as asserting a satisfiable description of the concrete graphs. -/
inductive GraphActionPair where
  | mk
deriving DecidableEq, Repr

/-- `ensure_variable` (atomic_predicate.py lines 42–47): asserts
`thing.sort() == Variable`; an `AttributeError` (no `.sort()`) or
`AssertionError` (wrong sort) is converted into the descriptive
`ValueError`. -/
def ensure_variable (thing : PyVal) : Except PyErr Unit :=
  match thing with
  | .z3val .variableSort _ => .ok ()
  | _ => .error (.valueError "Arguments must be z3 instances of Variable.")

/-- Whether a `PyVal` is a z3 expression of the `Variable` sort. -/
def isVariableSorted (thing : PyVal) : Bool :=
  match thing with
  | .z3val .variableSort _ => true
  | _ => false

/-- `z3_accessor(Variable.get_varname, item)` (lines 30–40): builds the
application `get_varname(item)` and reads
`.children()[0].children()[0].as_long()`. For the values the repository
constructs — `Variable.variable(IntVal(n))` — this returns the tag `n`. On a
z3 expression that is not such a constructor application the final
`.as_long()` call raises (`IntNumRef`-only attribute); on the values modelled
here that happens exactly when the sort is not `Variable`. -/
def z3_accessor_varname (item : PyVal) : Except PyErr Int :=
  match item with
  | .z3val .variableSort n => .ok n
  | _ => .error (.attributeError "as_long")

/-- The trace of solver operations `AtomicPredicate.__init__` performs
(lines 60–66): `self.solver = Solver()` creates a solving session and
`self.graphactionpair.initialize(self.solver)` initializes it with the
model's axioms. No formula of the predicate itself is asserted. -/
def atomicInitOps : List SolverOp := [SolverOp.newSolver, SolverOp.initModel]

/-- Python attribute lookup of `model` on an `AtomicPredicate` instance.
`AtomicPredicate.__init__` (lines 60–66) assigns `solver`,
`graphactionpair`, `interpretation`, `_asserted_yet` and `_status`;
subclass constructors add `x`, `y` and `label`. No code path assigns `model`
and it is not a class attribute, so the lookup raises
`AttributeError("model")` and no formula is built. -/
def getattrModel {α : Type} : Except PyErr α := .error (.attributeError "model")

/-- `Top` (lines 93–95): inherits `AtomicPredicate.__init__`; its
`get_predicate` returns the Python constant `True`. -/
structure TopL where
  gap : GraphActionPair

def TopL.mk' (gap : GraphActionPair) : List SolverOp × TopL :=
  (atomicInitOps, ⟨gap⟩)

def TopL.get_predicate (_t : TopL) : Except PyErr Formula := .ok (.lit true)

/-- `Bottom` (lines 97–99): `get_predicate` returns the constant `False`. -/
structure BottomL where
  gap : GraphActionPair

def BottomL.mk' (gap : GraphActionPair) : List SolverOp × BottomL :=
  (atomicInitOps, ⟨gap⟩)

def BottomL.get_predicate (_b : BottomL) : Except PyErr Formula := .ok (.lit false)

/-- `Equal` (lines 101–117): `__init__` first runs the base constructor
(solver creation + model initialization), then validates both arguments with
`ensure_variable` and stores them. -/
structure Equal where
  gap : GraphActionPair
  x : PyVal
  y : PyVal
deriving DecidableEq, Repr

def Equal.mk' (x y : PyVal) (gap : GraphActionPair) :
    List SolverOp × Except PyErr Equal :=
  (atomicInitOps,
    match ensure_variable x with
    | .error e => .error e
    | .ok () =>
      match ensure_variable y with
      | .error e => .error e
      | .ok () => .ok ⟨gap, x, y⟩)

/-- `Equal.get_predicate` (lines 115–117): compares the two extracted tags
with Python `==`, yielding a concrete Boolean (coerced by z3 when added). -/
def Equal.get_predicate (e : Equal) : Except PyErr Formula :=
  match z3_accessor_varname e.x with
  | .error err => .error err
  | .ok a =>
    match z3_accessor_varname e.y with
    | .error err => .error err
    | .ok b => .ok (.lit (decide (a = b)))

/-- `Labeled` (lines 119–135): validates only `x` (the `label` argument is
not `Variable`-typed). -/
structure Labeled where
  gap : GraphActionPair
  x : PyVal
  label : PyVal
deriving DecidableEq, Repr

def Labeled.mk' (x label : PyVal) (gap : GraphActionPair) :
    List SolverOp × Except PyErr Labeled :=
  (atomicInitOps,
    match ensure_variable x with
    | .error e => .error e
    | .ok () => .ok ⟨gap, x, label⟩)

/-- `Labeled.get_predicate` (lines 133–135) applies `z3_accessor` to the
symbolic application `interpretation(x)`: the second `.children()[0]` step
lands on the `Variable` datatype value `x` itself, whose `.as_long()` raises
`AttributeError` — the intended symbolic equation (the class docstring's
`(= (get-label (interpretation x)) Label)`) is never produced. -/
def Labeled.get_predicate (_l : Labeled) : Except PyErr Formula :=
  .error (.attributeError "as_long")

/-- `PreParent` (lines 138–154). `__init__` runs the base constructor and
validates `x`, `y`. -/
structure PreParent where
  gap : GraphActionPair
  x : PyVal
  y : PyVal
deriving DecidableEq, Repr

def PreParent.mk' (x y : PyVal) (gap : GraphActionPair) :
    List SolverOp × Except PyErr PreParent :=
  (atomicInitOps,
    match ensure_variable x with
    | .error e => .error e
    | .ok () =>
      match ensure_variable y with
      | .error e => .error e
      | .ok () => .ok ⟨gap, x, y⟩)

/-- `PreParent.get_predicate` (lines 152–154):
`return self.model.pregraph.parents(self.interpretation(self.x),
self.interpretation(self.y))` — evaluation begins with the attribute lookup
`self.model`, which raises (see `getattrModel`). -/
def PreParent.get_predicate (_p : PreParent) : Except PyErr Formula :=
  getattrModel

/-- `PostParent` (lines 156–174). -/
structure PostParent where
  gap : GraphActionPair
  x : PyVal
  y : PyVal
deriving DecidableEq, Repr

def PostParent.mk' (x y : PyVal) (gap : GraphActionPair) :
    List SolverOp × Except PyErr PostParent :=
  (atomicInitOps,
    match ensure_variable x with
    | .error e => .error e
    | .ok () =>
      match ensure_variable y with
      | .error e => .error e
      | .ok () => .ok ⟨gap, x, y⟩)

/-- `PostParent.get_predicate` (lines 172–174): reads `self.model`. -/
def PostParent.get_predicate (_p : PostParent) : Except PyErr Formula :=
  getattrModel

/-- `DoParent` (lines 176–193). -/
structure DoParent where
  gap : GraphActionPair
  x : PyVal
  y : PyVal
deriving DecidableEq, Repr

def DoParent.mk' (x y : PyVal) (gap : GraphActionPair) :
    List SolverOp × Except PyErr DoParent :=
  (atomicInitOps,
    match ensure_variable x with
    | .error e => .error e
    | .ok () =>
      match ensure_variable y with
      | .error e => .error e
      | .ok () => .ok ⟨gap, x, y⟩)

/-- `DoParent.get_predicate` (lines 190–193): reads `self.model`. -/
def DoParent.get_predicate (_p : DoParent) : Except PyErr Formula :=
  getattrModel

/-- `PreLink` (lines 195–211). -/
structure PreLink where
  gap : GraphActionPair
  x : PyVal
  y : PyVal
deriving DecidableEq, Repr

def PreLink.mk' (x y : PyVal) (gap : GraphActionPair) :
    List SolverOp × Except PyErr PreLink :=
  (atomicInitOps,
    match ensure_variable x with
    | .error e => .error e
    | .ok () =>
      match ensure_variable y with
      | .error e => .error e
      | .ok () => .ok ⟨gap, x, y⟩)

/-- `PreLink.get_predicate` (lines 209–211): reads `self.model`. -/
def PreLink.get_predicate (_p : PreLink) : Except PyErr Formula :=
  getattrModel

/-- `PostLink` (lines 213–229). -/
structure PostLink where
  gap : GraphActionPair
  x : PyVal
  y : PyVal
deriving DecidableEq, Repr

def PostLink.mk' (x y : PyVal) (gap : GraphActionPair) :
    List SolverOp × Except PyErr PostLink :=
  (atomicInitOps,
    match ensure_variable x with
    | .error e => .error e
    | .ok () =>
      match ensure_variable y with
      | .error e => .error e
      | .ok () => .ok ⟨gap, x, y⟩)

/-- `PostLink.get_predicate` (lines 227–229): reads `self.model`. -/
def PostLink.get_predicate (_p : PostLink) : Except PyErr Formula :=
  getattrModel

/-- `DoLink` (lines 231–248). -/
structure DoLink where
  gap : GraphActionPair
  x : PyVal
  y : PyVal
deriving DecidableEq, Repr

def DoLink.mk' (x y : PyVal) (gap : GraphActionPair) :
    List SolverOp × Except PyErr DoLink :=
  (atomicInitOps,
    match ensure_variable x with
    | .error e => .error e
    | .ok () =>
      match ensure_variable y with
      | .error e => .error e
      | .ok () => .ok ⟨gap, x, y⟩)

/-- `DoLink.get_predicate` (lines 245–248): reads `self.model`. -/
def DoLink.get_predicate (_p : DoLink) : Except PyErr Formula :=
  getattrModel

/-- `DoUnlink` (lines 250–267). -/
structure DoUnlink where
  gap : GraphActionPair
  x : PyVal
  y : PyVal
deriving DecidableEq, Repr

def DoUnlink.mk' (x y : PyVal) (gap : GraphActionPair) :
    List SolverOp × Except PyErr DoUnlink :=
  (atomicInitOps,
    match ensure_variable x with
    | .error e => .error e
    | .ok () =>
      match ensure_variable y with
      | .error e => .error e
      | .ok () => .ok ⟨gap, x, y⟩)

/-- `DoUnlink.get_predicate` (lines 264–267): reads `self.model`. -/
def DoUnlink.get_predicate (_p : DoUnlink) : Except PyErr Formula :=
  getattrModel

/-- `PreHas` (lines 269–282): single `Variable` argument. -/
structure PreHas where
  gap : GraphActionPair
  x : PyVal
deriving DecidableEq, Repr

def PreHas.mk' (x : PyVal) (gap : GraphActionPair) :
    List SolverOp × Except PyErr PreHas :=
  (atomicInitOps,
    match ensure_variable x with
    | .error e => .error e
    | .ok () => .ok ⟨gap, x⟩)

/-- `PreHas.get_predicate` (lines 280–282): reads `self.model`. -/
def PreHas.get_predicate (_p : PreHas) : Except PyErr Formula :=
  getattrModel

/-- `PostHas` (lines 284–297). -/
structure PostHas where
  gap : GraphActionPair
  x : PyVal
deriving DecidableEq, Repr

def PostHas.mk' (x : PyVal) (gap : GraphActionPair) :
    List SolverOp × Except PyErr PostHas :=
  (atomicInitOps,
    match ensure_variable x with
    | .error e => .error e
    | .ok () => .ok ⟨gap, x⟩)

/-- `PostHas.get_predicate` (lines 295–297): reads `self.model`. -/
def PostHas.get_predicate (_p : PostHas) : Except PyErr Formula :=
  getattrModel

/-- Modelled from the spec (section 4.2 leaf catalogue): the formula each
relational leaf is documented to compile to, e.g. for `PreParent(x,y)` the
pregraph's `parents` relation applied to `(interpretation(x),
interpretation(y))`. Stated over the tags of the two variables. These
definitions follow the spec's words and exist to be compared with the
source-translated `get_predicate` functions above. -/
def specPreParentFormula (x y : Int) : Formula := .preParentsAtom x y

def specPostParentFormula (x y : Int) : Formula := .postParentsAtom x y

def specDoParentFormula (x y : Int) : Formula := .doParentAtom x y

def specPreLinkFormula (x y : Int) : Formula := .preLinksAtom x y

def specPostLinkFormula (x y : Int) : Formula := .postLinksAtom x y

def specDoLinkFormula (x y : Int) : Formula := .doLinkAtom x y

def specDoUnlinkFormula (x y : Int) : Formula := .doUnlinkAtom x y

def specPreHasFormula (x : Int) : Formula := .preHasAtom x

def specPostHasFormula (x : Int) : Formula := .postHasAtom x

/-- The mutable evaluator state an `AtomicPredicate` instance carries
(atomic_predicate.py lines 60–66): the formulas `solver.add` has received
beyond the initialization axioms, the `_asserted_yet` flag and the `_status`
cache. `__init__` leaves `assertions = []`, `_asserted_yet = False`,
`_status = None`. -/
structure EvalState where
  assertions : List Formula
  asserted_yet : Bool
  status : Option Status

/-- The evaluator state right after `AtomicPredicate.__init__`. -/
def initState : EvalState := ⟨[], false, none⟩

/-- `AtomicPredicate._assert_over` (lines 71–75), parameterized by the result
`gp` of the instance's `get_predicate()` call: `self.solver.add(...)`
evaluates `get_predicate()` first, so when that raises, nothing is added and
the flags are untouched; otherwise the formula is added, `solver.check()` is
run and cached in `_status`, and `_asserted_yet` is set. The check's verdict
over the session (initialization axioms plus added formulas) is the oracle's
answer on the added formulas: the spec describes `initialize` (model.py, not
under src/) as asserting a satisfiable description of the concrete graphs,
independent of the closed Boolean constants these predicates add. -/
def assertOver (gp : Except PyErr Formula) (s : EvalState) :
    EvalState × List SolverOp × Except PyErr Unit :=
  match gp with
  | .error e => (s, [], .error e)
  | .ok f =>
      (⟨s.assertions ++ [f], true,
        some (oracleCheck (.conj (s.assertions ++ [f])))⟩,
       [SolverOp.add f, SolverOp.check], .ok ())

/-- `AtomicPredicate.check_sat` (lines 77–82): calls `_assert_over` only when
`_asserted_yet` is false, then returns the cached `_status`. -/
def check_sat (gp : Except PyErr Formula) (s : EvalState) :
    EvalState × List SolverOp × Except PyErr (Option Status) :=
  if s.asserted_yet then (s, [], .ok s.status)
  else
    match assertOver gp s with
    | (s1, ops, .ok ()) => (s1, ops, .ok s1.status)
    | (s1, ops, .error e) => (s1, ops, .error e)

/-- A witness model handed back by the oracle on a `sat` verdict; its content
is opaque to the translated code. -/
inductive Z3Model where
  | fromSolver
deriving DecidableEq, Repr

/-- `AtomicPredicate.get_model` (lines 84–91): asserts first if needed, then
calls `self.solver.model()`. The oracle's model-reading facility is modelled
from the spec and the method's own docstring ("Raises Z3Exception if the
model is not available"): it returns a witness exactly when the cached check
verdict is `sat` and raises the model-unavailable `Z3Exception` otherwise. -/
def get_model (gp : Except PyErr Formula) (s : EvalState) :
    EvalState × List SolverOp × Except PyErr Z3Model :=
  match (if s.asserted_yet then (s, ([] : List SolverOp), Except.ok ())
         else assertOver gp s) with
  | (s1, ops, .error e) => (s1, ops, .error e)
  | (s1, ops, .ok ()) =>
      match s1.status with
      | some Status.sat => (s1, ops ++ [SolverOp.readModel], .ok Z3Model.fromSolver)
      | _ => (s1, ops ++ [SolverOp.readModel],
              .error (.z3Exception "model is not available"))

/-- Whether a solver operation asserts a formula or runs the decision
procedure (as opposed to creating/initializing a session or reading a
model). -/
def SolverOp.isAssertOrCheck : SolverOp → Bool
  | .add _ => true
  | .check => true
  | _ => false

/-! ## src/new_engine/predicate.py -/

mutual

/-- The closed set of Syndra predicate nodes of new_engine/predicate.py, with
exactly the fields the constructors store. `andP` / `orP` hold the validated
argument tuple (`__init__` checks every element is a `Predicate`, lines
37–40 and 56–59, so storing them at type `SPred` is faithful); `modelHasRule`
holds the unvalidated `rule_function` (a Python callable from a rule constant
to a value hoped to be a `Predicate`) and the mutable `rule_variable` field
(`None` until a compilation assigns it, lines 78–80); `pregraphHas` /
`postgraphHas` hold the rule constant (by its tag) and the unvalidated
`structure` argument (lines 89–104). -/
inductive SPred where
  | top : SPred
  | bottom : SPred
  | andP : List SPred → SPred
  | orP : List SPred → SPred
  | notP : SPred → SPred
  | modelHasRule : (Nat → PyObj) → Option Nat → SPred
  | pregraphHas : Nat → PyObj → SPred
  | postgraphHas : Nat → PyObj → SPred

/-- A Python value in a position where predicate.py hopes for a `Predicate`:
either an actual predicate node or a value of some other type. -/
inductive PyObj where
  | pred : SPred → PyObj
  | intV : Int → PyObj
  | strV : String → PyObj

end

/-- Python `repr` of the values `PyObj` models, used in the `_ensure_predicate`
error message. -/
def pyRepr : PyObj → String
  | .pred _ => "<predicate.Predicate object>"
  | .intV n => toString n
  | .strV s => "'" ++ s ++ "'"

/-- `_ensure_predicate` (predicate.py lines 29–32): `ValueError` whenever the
argument is not a `Predicate` instance. -/
def _ensure_predicate (thing : PyObj) : Except PyErr Unit :=
  match thing with
  | .pred _ => .ok ()
  | _ => .error (.valueError
      ("Argument must be instance of Predicate. Instead, got " ++ pyRepr thing))

/-- Whether a `PyObj` is a `Predicate` instance. -/
def isPredObj : PyObj → Bool
  | .pred _ => true
  | _ => false

/-- `And.__init__` (lines 37–40): runs `_ensure_predicate` over the arguments
in order (first failure raises), then stores them. -/
def mkAnd : List PyObj → Except PyErr SPred :=
  fun preds => (ensureAllPreds preds).map SPred.andP
where
  ensureAllPreds : List PyObj → Except PyErr (List SPred)
    | [] => .ok []
    | t :: ts =>
      match t with
      | .pred p => (ensureAllPreds ts).map (p :: ·)
      | _ => .error (.valueError
          ("Argument must be instance of Predicate. Instead, got " ++ pyRepr t))

/-- `Or.__init__` (lines 56–59): same validation as `And`. -/
def mkOr : List PyObj → Except PyErr SPred :=
  fun preds => (mkAnd.ensureAllPreds preds).map SPred.orP

/-- `Not.__init__` (lines 47–49): validates its single argument. -/
def mkNot (pred : PyObj) : Except PyErr SPred :=
  match pred with
  | .pred p => .ok (.notP p)
  | _ => .error (.valueError
      ("Argument must be instance of Predicate. Instead, got " ++ pyRepr pred))

/-- `ModelHasRule.__init__` (lines 78–80): stores `rule_function` without any
validation and sets `rule_variable = None`. It cannot raise. -/
def mkModelHasRule (rule_function : Nat → PyObj) : Except PyErr SPred :=
  .ok (.modelHasRule rule_function none)

/-- `PregraphHas.__init__` (lines 91–93): stores `rule` and `structure`
without any validation. It cannot raise. -/
def mkPregraphHas (rule : Nat) (struc : PyObj) : Except PyErr SPred :=
  .ok (.pregraphHas rule struc)

/-- `PostgraphHas.__init__` (lines 100–102): stores `rule` and `structure`
without any validation. It cannot raise. -/
def mkPostgraphHas (rule : Nat) (struc : PyObj) : Except PyErr SPred :=
  .ok (.postgraphHas rule struc)

/-- Modelled from the spec: `datatypes.new_rule` (datatypes.py, not under
src/) allocates a fresh `Rule` constant with a strictly increasing tag
(spec 4.1 freshness discipline, spec 9 "global mutable counters for fresh
variable/rule tags"). The counter is threaded explicitly. -/
def new_rule (cnt : Nat) : Nat × Nat := (cnt, cnt + 1)

/-- Every `_assert` method in predicate.py declares the parameters
`(self, model, string_interner, node_interner)`. Two call sites invoke a
sub-predicate's `_assert` with a single positional argument:
`ModelHasRule._assert` (line 86, `..._assert(model)`) and
`PregraphHas._assert` / `PostgraphHas._assert` (lines 95 and 104,
`self.structure._assert(datatypes.Rule.pregraph(self.rule))`). Python raises
`TypeError` at argument binding, before the callee's body runs — so the
callee neither recurses nor mutates anything. When the callee is not a
`Predicate` at all, the attribute lookup `._assert` itself raises
`AttributeError`. This definition is the value of such a one-argument call. -/
def assertCallOneArg (callee : PyObj) : Except PyErr Formula :=
  match callee with
  | .pred _ => .error (.typeError
      "_assert() takes exactly 4 arguments (2 given)")
  | _ => .error (.attributeError "_assert")

mutual

/-- `Predicate._assert` dispatch (predicate.py lines 35–120), called as the
evaluator calls it — through `get_predicate(model_variable, string_interner,
node_interner)` (lines 11–24) with all three arguments. The result is the
(possibly mutated) node, the fresh-rule counter, and the returned formula or
the exception raised. Per class:
  * `And._assert` / `Or._assert` (lines 41–42, 60–61): `z3.And` / `z3.Or`
    over the sub-predicates' compilations, evaluated left to right, a raise
    aborting the rest;
  * `Not._assert` (lines 50–51): `z3.Not` of the sub-compilation;
  * `ModelHasRule._assert` (lines 81–86): assigns
    `self.rule_variable = datatypes.new_rule()`, then builds
    `z3.Exists([rv], z3.And(model(rv), self.rule_function(rv)._assert(model)))`
    — the inner one-argument call raises before the quantifier is built;
  * `PregraphHas._assert` / `PostgraphHas._assert` (lines 94–95, 103–104):
    a one-argument call on the stored `structure`;
  * `Top._assert` (lines 111–112): `z3.Or(True)`;
  * `Bottom._assert` (lines 119–120): `z3.And(False)`. -/
def SPred.assertP : SPred → Nat → SPred × Nat × Except PyErr Formula
  | .top, cnt => (.top, cnt, .ok (.disj [.lit true]))
  | .bottom, cnt => (.bottom, cnt, .ok (.conj [.lit false]))
  | .andP ps, cnt =>
      match SPred.assertListP ps cnt with
      | (ps1, cnt1, .ok fs) => (.andP ps1, cnt1, .ok (.conj fs))
      | (ps1, cnt1, .error e) => (.andP ps1, cnt1, .error e)
  | .orP ps, cnt =>
      match SPred.assertListP ps cnt with
      | (ps1, cnt1, .ok fs) => (.orP ps1, cnt1, .ok (.disj fs))
      | (ps1, cnt1, .error e) => (.orP ps1, cnt1, .error e)
  | .notP p, cnt =>
      match SPred.assertP p cnt with
      | (p1, cnt1, .ok f) => (.notP p1, cnt1, .ok (.neg f))
      | (p1, cnt1, .error e) => (.notP p1, cnt1, .error e)
  | .modelHasRule rf _, cnt =>
      match new_rule cnt with
      | (rv, cnt1) =>
        match assertCallOneArg (rf rv) with
        | .error e => (.modelHasRule rf (some rv), cnt1, .error e)
        | .ok f => (.modelHasRule rf (some rv), cnt1,
            .ok (.existsRule rv (.conj [.ruleInModel rv, f])))
  | .pregraphHas r struc, cnt =>
      (.pregraphHas r struc, cnt, assertCallOneArg struc)
  | .postgraphHas r struc, cnt =>
      (.postgraphHas r struc, cnt, assertCallOneArg struc)

/-- Left-to-right compilation of `And` / `Or` sub-predicates: the prefix
before a raise is compiled (and possibly mutated), the suffix untouched. -/
def SPred.assertListP : List SPred → Nat → List SPred × Nat × Except PyErr (List Formula)
  | [], cnt => ([], cnt, .ok [])
  | p :: ps, cnt =>
      match SPred.assertP p cnt with
      | (p1, cnt1, .error e) => (p1 :: ps, cnt1, .error e)
      | (p1, cnt1, .ok f) =>
        match SPred.assertListP ps cnt1 with
        | (ps1, cnt2, .error e) => (p1 :: ps1, cnt2, .error e)
        | (ps1, cnt2, .ok fs) => (p1 :: ps1, cnt2, .ok (f :: fs))

end

mutual

/-- Direct Boolean evaluation of a predicate tree, as the spec's testable
property 1 describes it: `Top` = true, `Bottom` = false, `And` = conjunction
of all sub-results, `Or` = disjunction of any sub-result, `Not` = negation.
On nodes outside that fragment the value is unused (theorems guard with
`isBooleanTree`). -/
def SPred.boolEval : SPred → Bool
  | .top => true
  | .bottom => false
  | .andP ps => SPred.boolEvalAll ps
  | .orP ps => SPred.boolEvalAny ps
  | .notP p => !p.boolEval
  | _ => false

def SPred.boolEvalAll : List SPred → Bool
  | [] => true
  | p :: ps => p.boolEval && SPred.boolEvalAll ps

def SPred.boolEvalAny : List SPred → Bool
  | [] => false
  | p :: ps => p.boolEval || SPred.boolEvalAny ps

end

mutual

/-- Whether a tree is built only from `Top`, `Bottom`, `And`, `Or`, `Not`. -/
def SPred.isBooleanTree : SPred → Bool
  | .top => true
  | .bottom => true
  | .andP ps => SPred.isBooleanList ps
  | .orP ps => SPred.isBooleanList ps
  | .notP p => p.isBooleanTree
  | _ => false

def SPred.isBooleanList : List SPred → Bool
  | [] => true
  | p :: ps => p.isBooleanTree && SPred.isBooleanList ps

end

mutual

/-- Whether no `ModelHasRule` node is reachable by the compiler's recursion
(`And` / `Or` / `Not` descend into their children; `PregraphHas` /
`PostgraphHas` do not reach their stored structure, because their
one-argument call raises before the callee body runs). -/
def SPred.mhrFree : SPred → Bool
  | .top => true
  | .bottom => true
  | .andP ps => SPred.mhrFreeList ps
  | .orP ps => SPred.mhrFreeList ps
  | .notP p => p.mhrFree
  | .modelHasRule _ _ => false
  | .pregraphHas _ _ => true
  | .postgraphHas _ _ => true

def SPred.mhrFreeList : List SPred → Bool
  | [] => true
  | p :: ps => p.mhrFree && SPred.mhrFreeList ps

end

mutual

/-- Node count, the measure for the inductions below. -/
def SPred.psize : SPred → Nat
  | .top => 1
  | .bottom => 1
  | .andP ps => 1 + SPred.lsize ps
  | .orP ps => 1 + SPred.lsize ps
  | .notP p => 1 + p.psize
  | .modelHasRule _ _ => 1
  | .pregraphHas _ _ => 1
  | .postgraphHas _ _ => 1

def SPred.lsize : List SPred → Nat
  | [] => 0
  | p :: ps => p.psize + SPred.lsize ps

end

mutual

/-- The formula a Boolean-fragment tree compiles to (mirrors the `.ok`
component of `SPred.assertP` on that fragment; unused elsewhere). -/
def SPred.compiledFormula : SPred → Formula
  | .top => .disj [.lit true]
  | .bottom => .conj [.lit false]
  | .andP ps => .conj (SPred.compiledList ps)
  | .orP ps => .disj (SPred.compiledList ps)
  | .notP p => .neg p.compiledFormula
  | _ => .lit false

def SPred.compiledList : List SPred → List Formula
  | [] => []
  | p :: ps => p.compiledFormula :: SPred.compiledList ps

end

/-- Modelled from the spec: the new_engine query evaluator (solver.py, not
under src/). Per spec 4.4 it compiles the predicate tree through
`get_predicate(model_variable, string_interner, node_interner)` — which
simply returns `_assert`'s formula (predicate.py lines 11–24) — asserts the
single resulting formula once and runs the oracle's decision procedure,
returning its verdict. A Python exception during compilation propagates. -/
def checkSatNE (p : SPred) (cnt : Nat) : Except PyErr Status :=
  match p.assertP cnt with
  | (_, _, .ok f) => .ok (oracleCheck f)
  | (_, _, .error e) => .error e

/-! ## Helper lemmas -/

theorem SPred.psize_pos : ∀ (p : SPred), 1 ≤ p.psize := by
  intro p
  cases p <;> simp [SPred.psize]

theorem ensure_variable_eq (t : PyVal) :
    ensure_variable t = (if isVariableSorted t then .ok ()
      else .error (.valueError "Arguments must be z3 instances of Variable.")) := by
  cases t with
  | z3val s n => cases s <;> rfl
  | pyint n => rfl
  | pystr s => rfl

/-- Whether an `Except` value is a success. -/
def isOkE {α : Type} : Except PyErr α → Bool
  | .ok _ => true
  | .error _ => false

theorem isOkE_map {α β : Type} (g : α → β) (e : Except PyErr α) :
    isOkE (Except.map g e) = isOkE e := by
  cases e <;> rfl

theorem isOkE_ensureAllPreds (ls : List PyObj) :
    isOkE (mkAnd.ensureAllPreds ls) = ls.all isPredObj := by
  induction ls with
  | nil => rfl
  | cons t ts ih =>
    cases t with
    | pred p => simp [mkAnd.ensureAllPreds, isOkE_map, ih, isPredObj]
    | intV n => simp [mkAnd.ensureAllPreds, isOkE, isPredObj]
    | strV s => simp [mkAnd.ensureAllPreds, isOkE, isPredObj]

theorem bool_tree_assert_aux :
    ∀ n : Nat,
      (∀ (p : SPred) (cnt : Nat), p.psize ≤ n → p.isBooleanTree = true →
        p.assertP cnt = (p, cnt, .ok p.compiledFormula)) ∧
      (∀ (ps : List SPred) (cnt : Nat), SPred.lsize ps ≤ n →
        SPred.isBooleanList ps = true →
        SPred.assertListP ps cnt = (ps, cnt, .ok (SPred.compiledList ps))) := by
  intro n
  induction n using Nat.strong_induction_on with
  | _ n ih =>
    have hp : ∀ (p : SPred) (cnt : Nat), p.psize ≤ n → p.isBooleanTree = true →
        p.assertP cnt = (p, cnt, .ok p.compiledFormula) := by
      intro p cnt hsz hb
      cases p with
      | top => simp [SPred.assertP, SPred.compiledFormula]
      | bottom => simp [SPred.assertP, SPred.compiledFormula]
      | andP ps =>
        have hlist : SPred.isBooleanList ps = true := by
          simpa [SPred.isBooleanTree] using hb
        have hn : 1 ≤ n := le_trans (SPred.psize_pos _) hsz
        have hsz' : SPred.lsize ps ≤ n - 1 := by
          simp [SPred.psize] at hsz; omega
        have hl := (ih (n - 1) (by omega)).2 ps cnt hsz' hlist
        simp [SPred.assertP, hl, SPred.compiledFormula]
      | orP ps =>
        have hlist : SPred.isBooleanList ps = true := by
          simpa [SPred.isBooleanTree] using hb
        have hn : 1 ≤ n := le_trans (SPred.psize_pos _) hsz
        have hsz' : SPred.lsize ps ≤ n - 1 := by
          simp [SPred.psize] at hsz; omega
        have hl := (ih (n - 1) (by omega)).2 ps cnt hsz' hlist
        simp [SPred.assertP, hl, SPred.compiledFormula]
      | notP q =>
        have hq : q.isBooleanTree = true := by
          simpa [SPred.isBooleanTree] using hb
        have hn : 1 ≤ n := le_trans (SPred.psize_pos _) hsz
        have hsz' : q.psize ≤ n - 1 := by
          simp [SPred.psize] at hsz; omega
        have h1 := (ih (n - 1) (by omega)).1 q cnt hsz' hq
        simp [SPred.assertP, h1, SPred.compiledFormula]
      | modelHasRule rf rv => simp [SPred.isBooleanTree] at hb
      | pregraphHas r s => simp [SPred.isBooleanTree] at hb
      | postgraphHas r s => simp [SPred.isBooleanTree] at hb
    refine ⟨hp, ?_⟩
    intro ps cnt hsz hb
    cases ps with
    | nil => simp [SPred.assertListP, SPred.compiledList]
    | cons p ps' =>
      have hbp : p.isBooleanTree = true ∧ SPred.isBooleanList ps' = true := by
        simpa [SPred.isBooleanList, Bool.and_eq_true] using hb
      have hpos := SPred.psize_pos p
      have hszp : p.psize ≤ n := by
        simp [SPred.lsize] at hsz; omega
      have h1 := hp p cnt hszp hbp.1
      have hsz' : SPred.lsize ps' ≤ n - 1 := by
        simp [SPred.lsize] at hsz; omega
      have hn : 1 ≤ n := by
        simp [SPred.lsize] at hsz; omega
      have h2 := (ih (n - 1) (by omega)).2 ps' cnt hsz' hbp.2
      simp [SPred.assertListP, h1, h2, SPred.compiledList]

theorem bool_tree_formula_aux :
    ∀ n : Nat,
      (∀ (p : SPred), p.psize ≤ n → p.isBooleanTree = true →
        p.compiledFormula.isProp = true ∧ p.compiledFormula.eval = p.boolEval) ∧
      (∀ (ps : List SPred), SPred.lsize ps ≤ n → SPred.isBooleanList ps = true →
        Formula.isPropList (SPred.compiledList ps) = true ∧
        Formula.evalAll (SPred.compiledList ps) = SPred.boolEvalAll ps ∧
        Formula.evalAny (SPred.compiledList ps) = SPred.boolEvalAny ps) := by
  intro n
  induction n using Nat.strong_induction_on with
  | _ n ih =>
    have hp : ∀ (p : SPred), p.psize ≤ n → p.isBooleanTree = true →
        p.compiledFormula.isProp = true ∧ p.compiledFormula.eval = p.boolEval := by
      intro p hsz hb
      cases p with
      | top =>
        simp [SPred.compiledFormula, Formula.isProp, Formula.isPropList,
          Formula.eval, Formula.evalAny, SPred.boolEval]
      | bottom =>
        simp [SPred.compiledFormula, Formula.isProp, Formula.isPropList,
          Formula.eval, Formula.evalAll, SPred.boolEval]
      | andP ps =>
        have hlist : SPred.isBooleanList ps = true := by
          simpa [SPred.isBooleanTree] using hb
        have hn : 1 ≤ n := le_trans (SPred.psize_pos _) hsz
        have hsz' : SPred.lsize ps ≤ n - 1 := by
          simp [SPred.psize] at hsz; omega
        have hl := (ih (n - 1) (by omega)).2 ps hsz' hlist
        simp [SPred.compiledFormula, Formula.isProp, Formula.eval,
          SPred.boolEval, hl.1, hl.2.1]
      | orP ps =>
        have hlist : SPred.isBooleanList ps = true := by
          simpa [SPred.isBooleanTree] using hb
        have hn : 1 ≤ n := le_trans (SPred.psize_pos _) hsz
        have hsz' : SPred.lsize ps ≤ n - 1 := by
          simp [SPred.psize] at hsz; omega
        have hl := (ih (n - 1) (by omega)).2 ps hsz' hlist
        simp [SPred.compiledFormula, Formula.isProp, Formula.eval,
          SPred.boolEval, hl.1, hl.2.2]
      | notP q =>
        have hq : q.isBooleanTree = true := by
          simpa [SPred.isBooleanTree] using hb
        have hn : 1 ≤ n := le_trans (SPred.psize_pos _) hsz
        have hsz' : q.psize ≤ n - 1 := by
          simp [SPred.psize] at hsz; omega
        have h1 := (ih (n - 1) (by omega)).1 q hsz' hq
        simp [SPred.compiledFormula, Formula.isProp, Formula.eval,
          SPred.boolEval, h1.1, h1.2]
      | modelHasRule rf rv => simp [SPred.isBooleanTree] at hb
      | pregraphHas r s => simp [SPred.isBooleanTree] at hb
      | postgraphHas r s => simp [SPred.isBooleanTree] at hb
    refine ⟨hp, ?_⟩
    intro ps hsz hb
    cases ps with
    | nil =>
      simp [SPred.compiledList, Formula.isPropList, Formula.evalAll,
        Formula.evalAny, SPred.boolEvalAll, SPred.boolEvalAny]
    | cons p ps' =>
      have hbp : p.isBooleanTree = true ∧ SPred.isBooleanList ps' = true := by
        simpa [SPred.isBooleanList, Bool.and_eq_true] using hb
      have hpos := SPred.psize_pos p
      have hszp : p.psize ≤ n := by
        simp [SPred.lsize] at hsz; omega
      have h1 := hp p hszp hbp.1
      have hsz' : SPred.lsize ps' ≤ n - 1 := by
        simp [SPred.lsize] at hsz; omega
      have hn : 1 ≤ n := by
        simp [SPred.lsize] at hsz; omega
      have h2 := (ih (n - 1) (by omega)).2 ps' hsz' hbp.2
      simp [SPred.compiledList, Formula.isPropList, Formula.evalAll,
        Formula.evalAny, SPred.boolEvalAll, SPred.boolEvalAny,
        h1.1, h1.2, h2.1, h2.2.1, h2.2.2]

theorem mhr_free_assert_id_aux :
    ∀ n : Nat,
      (∀ (p : SPred) (cnt : Nat), p.psize ≤ n → p.mhrFree = true →
        (p.assertP cnt).1 = p ∧ (p.assertP cnt).2.1 = cnt) ∧
      (∀ (ps : List SPred) (cnt : Nat), SPred.lsize ps ≤ n →
        SPred.mhrFreeList ps = true →
        (SPred.assertListP ps cnt).1 = ps ∧ (SPred.assertListP ps cnt).2.1 = cnt) := by
  intro n
  induction n using Nat.strong_induction_on with
  | _ n ih =>
    have hp : ∀ (p : SPred) (cnt : Nat), p.psize ≤ n → p.mhrFree = true →
        (p.assertP cnt).1 = p ∧ (p.assertP cnt).2.1 = cnt := by
      intro p cnt hsz hb
      cases p with
      | top => simp [SPred.assertP]
      | bottom => simp [SPred.assertP]
      | andP ps =>
        have hlist : SPred.mhrFreeList ps = true := by
          simpa [SPred.mhrFree] using hb
        have hn : 1 ≤ n := le_trans (SPred.psize_pos _) hsz
        have hsz' : SPred.lsize ps ≤ n - 1 := by
          simp [SPred.psize] at hsz; omega
        have hl := (ih (n - 1) (by omega)).2 ps cnt hsz' hlist
        rcases hAL : SPred.assertListP ps cnt with ⟨ps1, cnt1, r⟩
        rw [hAL] at hl
        cases r <;> simp_all [SPred.assertP, hAL]
      | orP ps =>
        have hlist : SPred.mhrFreeList ps = true := by
          simpa [SPred.mhrFree] using hb
        have hn : 1 ≤ n := le_trans (SPred.psize_pos _) hsz
        have hsz' : SPred.lsize ps ≤ n - 1 := by
          simp [SPred.psize] at hsz; omega
        have hl := (ih (n - 1) (by omega)).2 ps cnt hsz' hlist
        rcases hAL : SPred.assertListP ps cnt with ⟨ps1, cnt1, r⟩
        rw [hAL] at hl
        cases r <;> simp_all [SPred.assertP, hAL]
      | notP q =>
        have hq : q.mhrFree = true := by simpa [SPred.mhrFree] using hb
        have hn : 1 ≤ n := le_trans (SPred.psize_pos _) hsz
        have hsz' : q.psize ≤ n - 1 := by
          simp [SPred.psize] at hsz; omega
        have h1 := (ih (n - 1) (by omega)).1 q cnt hsz' hq
        rcases hA : SPred.assertP q cnt with ⟨q1, cnt1, r⟩
        rw [hA] at h1
        cases r <;> simp_all [SPred.assertP, hA]
      | modelHasRule rf rv => simp [SPred.mhrFree] at hb
      | pregraphHas r s => simp [SPred.assertP]
      | postgraphHas r s => simp [SPred.assertP]
    refine ⟨hp, ?_⟩
    intro ps cnt hsz hb
    cases ps with
    | nil => simp [SPred.assertListP]
    | cons p ps' =>
      have hbp : p.mhrFree = true ∧ SPred.mhrFreeList ps' = true := by
        simpa [SPred.mhrFreeList, Bool.and_eq_true] using hb
      have hpos := SPred.psize_pos p
      have hszp : p.psize ≤ n := by
        simp [SPred.lsize] at hsz; omega
      have hsz' : SPred.lsize ps' ≤ n - 1 := by
        simp [SPred.lsize] at hsz; omega
      have hn : 1 ≤ n := by
        simp [SPred.lsize] at hsz; omega
      have h1 := hp p cnt hszp hbp.1
      rcases hA : SPred.assertP p cnt with ⟨q, c1, r⟩
      rw [hA] at h1
      have h2 := (ih (n - 1) (by omega)).2 ps' c1 hsz' hbp.2
      rcases hAL : SPred.assertListP ps' c1 with ⟨qs, c2, r2⟩
      rw [hAL] at h2
      cases r with
      | error e =>
        simp [SPred.assertListP, hA]
        exact ⟨h1.1, h1.2⟩
      | ok f =>
        cases r2 <;> simp [SPred.assertListP, hA, hAL] <;>
          exact ⟨⟨h1.1, h2.1⟩, h2.2.trans h1.2⟩

/-! ## Claim theorems -/

/-- Claim C1: the claim states that each relational leaf compiles to the
atomic formula of the spec's catalogue applied to the interpretation of its
arguments (e.g. `PreParent(x,y)` to the pregraph's `parents` relation at
`(interpretation(x), interpretation(y))`). On the code this fails: every one
of the nine relational `get_predicate` methods begins by reading the
never-assigned attribute `self.model` (the constructor stores the pair as
`self.graphactionpair`), so compilation raises `AttributeError("model")` and
in particular never returns the documented formula. -/
theorem C1_relational_leaf_compile_attribute_error :
    ∀ (p1 : PreParent) (p2 : PostParent) (p3 : DoParent) (p4 : PreLink)
      (p5 : PostLink) (p6 : DoLink) (p7 : DoUnlink) (p8 : PreHas)
      (p9 : PostHas) (x y : Int),
      p1.get_predicate = .error (.attributeError "model") ∧
      p2.get_predicate = .error (.attributeError "model") ∧
      p3.get_predicate = .error (.attributeError "model") ∧
      p4.get_predicate = .error (.attributeError "model") ∧
      p5.get_predicate = .error (.attributeError "model") ∧
      p6.get_predicate = .error (.attributeError "model") ∧
      p7.get_predicate = .error (.attributeError "model") ∧
      p8.get_predicate = .error (.attributeError "model") ∧
      p9.get_predicate = .error (.attributeError "model") ∧
      p1.get_predicate ≠ .ok (specPreParentFormula x y) ∧
      p2.get_predicate ≠ .ok (specPostParentFormula x y) ∧
      p3.get_predicate ≠ .ok (specDoParentFormula x y) ∧
      p4.get_predicate ≠ .ok (specPreLinkFormula x y) ∧
      p5.get_predicate ≠ .ok (specPostLinkFormula x y) ∧
      p6.get_predicate ≠ .ok (specDoLinkFormula x y) ∧
      p7.get_predicate ≠ .ok (specDoUnlinkFormula x y) ∧
      p8.get_predicate ≠ .ok (specPreHasFormula x) ∧
      p9.get_predicate ≠ .ok (specPostHasFormula x) :=
  fun _ _ _ _ _ _ _ _ _ _ _ =>
    ⟨rfl, rfl, rfl, rfl, rfl, rfl, rfl, rfl, rfl,
     fun h => Except.noConfusion h, fun h => Except.noConfusion h,
     fun h => Except.noConfusion h, fun h => Except.noConfusion h,
     fun h => Except.noConfusion h, fun h => Except.noConfusion h,
     fun h => Except.noConfusion h, fun h => Except.noConfusion h,
     fun h => Except.noConfusion h⟩

/-- Claim C2: the claim states that compiling `ModelHasRule(ruleFn)` yields
`∃ r. model(r) ∧ compile(ruleFn(r))`, allocating a fresh bound rule each
time and raising no error on re-compilation. On the code a single
compilation already raises: `ModelHasRule._assert` (predicate.py line 86)
invokes the sub-predicate's three-parameter `_assert` with one positional
argument, a `TypeError` at argument binding. This theorem evaluates the
compilation of `ModelHasRule(lambda r: PregraphHas(r, Top()))` at the
failing input: the fresh rule is allocated (counter 0 consumed, the node's
`rule_variable` set to it, the counter advanced to 1) and the `TypeError`
is raised instead of a formula being returned. -/
theorem C2_model_has_rule_compile_type_error :
    (SPred.modelHasRule
        (fun r => PyObj.pred (SPred.pregraphHas r (PyObj.pred SPred.top)))
        none).assertP 0
      = (SPred.modelHasRule
          (fun r => PyObj.pred (SPred.pregraphHas r (PyObj.pred SPred.top)))
          (some 0), 1,
         .error (.typeError "_assert() takes exactly 4 arguments (2 given)")) := by
  simp [SPred.assertP, new_rule, assertCallOneArg]

/-- Claim C3 counterexample: the claim quantifies over every predicate and
states that the first `check_sat()` call returns SAT, UNSAT or UNKNOWN. For
a `PreParent` evaluator the first call instead raises `AttributeError`
(compilation fails before anything is asserted), so no status is returned. -/
theorem C3_first_check_sat_can_raise :
    (check_sat
        (PreParent.get_predicate
          ⟨GraphActionPair.mk, PyVal.z3val Z3Sort.variableSort 0,
           PyVal.z3val Z3Sort.variableSort 1⟩)
        initState).2.2
      = .error (.attributeError "model") := by
  simp [check_sat, initState, assertOver, PreParent.get_predicate, getattrModel]

/-- Claim C3 as amended: for every predicate whose compilation succeeds
(`get_predicate` returns a formula `f`), the first `check_sat()` call
asserts `f` exactly once, runs the decision procedure, caches and returns
its verdict; a `check_sat()` call on an already-asserted evaluator returns
the identical cached status, performs no solver operation and leaves the
state unchanged; and neither `check_sat` nor `get_model` ever clears the
`_asserted_yet` flag. -/
theorem C3_check_sat_memoized :
    ∀ (f : Formula) (gp : Except PyErr Formula) (fs : List Formula)
      (st : Option Status),
      (check_sat (.ok f) initState).1
        = ⟨[f], true, some (oracleCheck (.conj [f]))⟩ ∧
      (check_sat (.ok f) initState).2.1 = [SolverOp.add f, SolverOp.check] ∧
      (check_sat (.ok f) initState).2.2
        = .ok (some (oracleCheck (.conj [f]))) ∧
      check_sat gp ⟨fs, true, st⟩ = (⟨fs, true, st⟩, [], .ok st) ∧
      (get_model gp ⟨fs, true, st⟩).1 = ⟨fs, true, st⟩ ∧
      (check_sat gp ⟨fs, true, st⟩).1.asserted_yet = true ∧
      (get_model gp ⟨fs, true, st⟩).1.asserted_yet = true := by
  intro f gp fs st
  refine ⟨?_, ?_, ?_, ?_, ?_, ?_, ?_⟩ <;>
    first
      | simp [check_sat, assertOver, initState]
      | (cases st with
          | none => simp [check_sat, get_model, assertOver]
          | some s => cases s <;> simp [check_sat, get_model, assertOver])

/-- Claim C4: on an evaluator whose cached verdict is UNSAT or UNKNOWN,
`get_model()` always fails with the model-unavailable `Z3Exception` and
never returns a binding. (The oracle's model-reading facility is modelled
from the spec and the method's docstring; see `get_model`.) -/
theorem C4_get_model_non_sat_fails :
    ∀ (gp : Except PyErr Formula) (fs : List Formula),
      (get_model gp ⟨fs, true, some Status.unsat⟩).2.2
        = .error (.z3Exception "model is not available") ∧
      (get_model gp ⟨fs, true, some Status.unknown⟩).2.2
        = .error (.z3Exception "model is not available") := by
  intro gp fs
  constructor <;> simp [get_model]

/-- Claim C5 counterexample: the claim states that no predicate constructor
creates, initializes or asserts into a solving session. Constructing the
l_to_z3 `Top` (any `AtomicPredicate`) refutes it: `__init__` creates a
`Solver()` and initializes it with the graph-action pair's axioms, a
nonempty trace of solver interactions. -/
theorem C5_construction_creates_and_inits_solver :
    (TopL.mk' GraphActionPair.mk).1 = [SolverOp.newSolver, SolverOp.initModel] ∧
    (TopL.mk' GraphActionPair.mk).1 ≠ [] := by
  constructor
  · rfl
  · simp [TopL.mk', atomicInitOps]

/-- Claim C5 as amended: `AtomicPredicate` construction creates and
initializes the instance's own solving session but asserts no formula and
runs no check; compilation (`get_predicate`) only returns a formula; the
first `check_sat()` call is the single point that asserts the compiled
formula and runs the decision procedure, and once asserted neither
`check_sat` nor `get_model` performs any further assert or check. -/
theorem C5_single_assert_check_point :
    ∀ (gap : GraphActionPair) (f : Formula) (gp : Except PyErr Formula)
      (fs : List Formula) (st : Option Status),
      (TopL.mk' gap).1 = [SolverOp.newSolver, SolverOp.initModel] ∧
      ((TopL.mk' gap).1.filter SolverOp.isAssertOrCheck) = [] ∧
      (check_sat (.ok f) initState).2.1 = [SolverOp.add f, SolverOp.check] ∧
      (check_sat gp ⟨fs, true, st⟩).2.1 = [] ∧
      ((get_model gp ⟨fs, true, st⟩).2.1.filter SolverOp.isAssertOrCheck) = [] := by
  intro gap f gp fs st
  refine ⟨rfl, rfl, ?_, ?_, ?_⟩
  · simp [check_sat, assertOver, initState]
  · simp [check_sat]
  · cases st with
    | none => simp [check_sat, get_model, assertOver, SolverOp.isAssertOrCheck]
    | some s => cases s <;>
        simp [check_sat, get_model, assertOver, SolverOp.isAssertOrCheck]

/-- Claim C6 counterexample: the claim states that every combinator rejects
a non-`Predicate` argument at construction time. `PregraphHas.__init__`
performs no validation: constructing `PregraphHas(rule, 42)` with the
integer 42 as structure succeeds without any error. -/
theorem C6_pregraph_has_accepts_non_predicate :
    mkPregraphHas 0 (PyObj.intV 42) = .ok (SPred.pregraphHas 0 (PyObj.intV 42)) := rfl

/-- Claim C6 as amended: only `And`, `Or` and `Not` validate their arguments
at construction — construction succeeds exactly when every argument is a
`Predicate`, and otherwise raises the descriptive `ValueError` (not a
`TypeError`) — while `ModelHasRule`, `PregraphHas` and `PostgraphHas` store
their arguments unvalidated and never raise at construction; an ill-typed
structure argument there only surfaces at compile time (as the
`AttributeError` of the missing `_assert` attribute). -/
theorem C6_validation_only_in_and_or_not :
    ∀ (ls : List PyObj) (t : PyObj) (rf : Nat → PyObj) (r : Nat),
      isOkE (mkAnd ls) = ls.all isPredObj ∧
      isOkE (mkOr ls) = ls.all isPredObj ∧
      isOkE (mkNot t) = isPredObj t ∧
      mkModelHasRule rf = .ok (.modelHasRule rf none) ∧
      mkPregraphHas r t = .ok (.pregraphHas r t) ∧
      mkPostgraphHas r t = .ok (.postgraphHas r t) ∧
      mkAnd [PyObj.intV 7] = .error (.valueError
        "Argument must be instance of Predicate. Instead, got 7") ∧
      ((SPred.pregraphHas r (PyObj.intV 42)).assertP 0).2.2
        = .error (.attributeError "_assert") := by
  intro ls t rf r
  refine ⟨?_, ?_, ?_, rfl, rfl, rfl, ?_, ?_⟩
  · simp [mkAnd, isOkE_map, isOkE_ensureAllPreds]
  · simp [mkOr, isOkE_map, isOkE_ensureAllPreds]
  · cases t <;> simp [mkNot, isOkE, isPredObj]
  · rfl
  · simp [SPred.assertP, assertCallOneArg]

/-- Claim C7: for every tree built only from `Top`, `Bottom`, `And`, `Or`
and `Not`, the evaluator's check returns SAT exactly when direct Boolean
evaluation of the tree yields true and UNSAT exactly when it yields false.
(The new_engine evaluator, solver.py, is not under src/ and is modelled
from the spec; the compiled formulas lie in the closed propositional
fragment, where the oracle is complete.) -/
theorem C7_boolean_tree_check_sat_matches_eval :
    ∀ (p : SPred) (cnt : Nat), p.isBooleanTree = true →
      checkSatNE p cnt
        = .ok (if p.boolEval then Status.sat else Status.unsat) := by
  intro p cnt hb
  have h1 := (bool_tree_assert_aux p.psize).1 p cnt le_rfl hb
  have h2 := (bool_tree_formula_aux p.psize).1 p le_rfl hb
  simp [checkSatNE, h1, oracleCheck, h2.1, h2.2]

/-- Witness for C7 at the concrete tree `And(Top, Not(Bottom))`. -/
theorem C7_boolean_tree_witness :
    SPred.isBooleanTree (SPred.andP [SPred.top, SPred.notP SPred.bottom]) = true ∧
    checkSatNE (SPred.andP [SPred.top, SPred.notP SPred.bottom]) 0
      = .ok Status.sat := by
  have hb : SPred.isBooleanTree (SPred.andP [SPred.top, SPred.notP SPred.bottom])
      = true := by
    simp [SPred.isBooleanTree, SPred.isBooleanList]
  refine ⟨hb, ?_⟩
  have h := C7_boolean_tree_check_sat_matches_eval
    (SPred.andP [SPred.top, SPred.notP SPred.bottom]) 0 hb
  simpa [SPred.boolEval, SPred.boolEvalAll] using h

/-- Claim C8: `Equal(x,x)` is SAT for any model (the compiled formula is the
tag equality, a true constant, and the session's initialization axioms are
satisfiable), and the conjunction of `Equal(x,y)` with its negation is
UNSAT for every model and every pair of variables: the compiled `Equal`
formula is a Boolean constant `c`, and `And(c, Not(c))` evaluates false
either way, so the oracle reports unsat. The `And`/`Not` composition over
`Equal` is not constructible inside src/ (the combinators live in the new
engine); it is taken at the compiled-formula level, as the spec describes
the composition. -/
theorem C8_equal_reflexive_and_contradiction :
    ∀ (gap : GraphActionPair) (tx ty : Int),
      Equal.get_predicate
          ⟨gap, PyVal.z3val Z3Sort.variableSort tx,
           PyVal.z3val Z3Sort.variableSort ty⟩
        = .ok (.lit (decide (tx = ty))) ∧
      (check_sat
          (Equal.get_predicate
            ⟨gap, PyVal.z3val Z3Sort.variableSort tx,
             PyVal.z3val Z3Sort.variableSort tx⟩)
          initState).2.2
        = .ok (some Status.sat) ∧
      oracleCheck (.conj [.lit (decide (tx = ty)),
                          .neg (.lit (decide (tx = ty)))])
        = Status.unsat := by
  intro gap tx ty
  refine ⟨?_, ?_, ?_⟩
  · simp [Equal.get_predicate, z3_accessor_varname]
  · simp [Equal.get_predicate, z3_accessor_varname, check_sat, initState,
      assertOver, oracleCheck, Formula.isProp, Formula.isPropList,
      Formula.eval, Formula.evalAll]
  · by_cases h : tx = ty <;>
      simp [h, oracleCheck, Formula.isProp, Formula.isPropList,
        Formula.eval, Formula.evalAll]

/-- Claim C9 counterexample: the claim states that every predicate node is
immutable and re-compilation changes no field. Compiling a `ModelHasRule`
node changes its `rule_variable` field (from `None` to the freshly
allocated rule), so the node after compilation differs from the node
before. -/
theorem C9_model_has_rule_mutates_rule_variable :
    ((SPred.modelHasRule (fun _ => PyObj.pred SPred.top) none).assertP 0).1
      ≠ SPred.modelHasRule (fun _ => PyObj.pred SPred.top) none := by
  simp [SPred.assertP, new_rule, assertCallOneArg]

/-- Claim C9 as amended: compilation never asserts into any solving session
(it only returns a formula — see `SPred.assertP`, whose only state is the
fresh-rule counter), and it changes no field of any node except
`ModelHasRule` nodes: a tree free of reachable `ModelHasRule` nodes is
returned unchanged with the counter untouched, while compiling a
`ModelHasRule` node sets exactly its `rule_variable` field to the freshly
allocated bound rule and advances the counter. -/
theorem C9_compile_mutation_scope :
    (∀ (p : SPred) (cnt : Nat), p.mhrFree = true →
      (p.assertP cnt).1 = p ∧ (p.assertP cnt).2.1 = cnt) ∧
    (∀ (rf : Nat → PyObj) (rv : Option Nat) (cnt : Nat),
      ((SPred.modelHasRule rf rv).assertP cnt).1
        = SPred.modelHasRule rf (some cnt) ∧
      ((SPred.modelHasRule rf rv).assertP cnt).2.1 = cnt + 1) := by
  constructor
  · intro p cnt h
    exact (mhr_free_assert_id_aux p.psize).1 p cnt le_rfl h
  · intro rf rv cnt
    cases hc : assertCallOneArg (rf cnt) <;>
      simp [SPred.assertP, new_rule, hc]

/-- Witness for C9 at the concrete node `Not(Top)`. -/
theorem C9_compile_mutation_scope_witness :
    SPred.mhrFree (SPred.notP SPred.top) = true ∧
    ((SPred.notP SPred.top).assertP 5).1 = SPred.notP SPred.top ∧
    ((SPred.notP SPred.top).assertP 5).2.1 = 5 := by
  have h : SPred.mhrFree (SPred.notP SPred.top) = true := by
    simp [SPred.mhrFree]
  have h2 := C9_compile_mutation_scope.1 (SPred.notP SPred.top) 5 h
  exact ⟨h, h2.1, h2.2⟩

/-- Claim C10: every atomic predicate taking `Variable` arguments validates
each of them at construction: construction succeeds exactly when every
`Variable`-typed argument is a solver-`Variable`-sorted value, and
otherwise raises the descriptive `ValueError` synchronously inside
`__init__` (never deferred: `get_predicate` is not involved). -/
theorem C10_leaf_constructors_validate_variables :
    ∀ (gap : GraphActionPair) (x y : PyVal),
      (Equal.mk' x y gap).2 = (if isVariableSorted x && isVariableSorted y
        then .ok ⟨gap, x, y⟩ else .error (.valueError
          "Arguments must be z3 instances of Variable.")) ∧
      (Labeled.mk' x y gap).2 = (if isVariableSorted x
        then .ok ⟨gap, x, y⟩ else .error (.valueError
          "Arguments must be z3 instances of Variable.")) ∧
      (PreParent.mk' x y gap).2 = (if isVariableSorted x && isVariableSorted y
        then .ok ⟨gap, x, y⟩ else .error (.valueError
          "Arguments must be z3 instances of Variable.")) ∧
      (PostParent.mk' x y gap).2 = (if isVariableSorted x && isVariableSorted y
        then .ok ⟨gap, x, y⟩ else .error (.valueError
          "Arguments must be z3 instances of Variable.")) ∧
      (DoParent.mk' x y gap).2 = (if isVariableSorted x && isVariableSorted y
        then .ok ⟨gap, x, y⟩ else .error (.valueError
          "Arguments must be z3 instances of Variable.")) ∧
      (PreLink.mk' x y gap).2 = (if isVariableSorted x && isVariableSorted y
        then .ok ⟨gap, x, y⟩ else .error (.valueError
          "Arguments must be z3 instances of Variable.")) ∧
      (PostLink.mk' x y gap).2 = (if isVariableSorted x && isVariableSorted y
        then .ok ⟨gap, x, y⟩ else .error (.valueError
          "Arguments must be z3 instances of Variable.")) ∧
      (DoLink.mk' x y gap).2 = (if isVariableSorted x && isVariableSorted y
        then .ok ⟨gap, x, y⟩ else .error (.valueError
          "Arguments must be z3 instances of Variable.")) ∧
      (DoUnlink.mk' x y gap).2 = (if isVariableSorted x && isVariableSorted y
        then .ok ⟨gap, x, y⟩ else .error (.valueError
          "Arguments must be z3 instances of Variable.")) ∧
      (PreHas.mk' x gap).2 = (if isVariableSorted x
        then .ok ⟨gap, x⟩ else .error (.valueError
          "Arguments must be z3 instances of Variable.")) ∧
      (PostHas.mk' x gap).2 = (if isVariableSorted x
        then .ok ⟨gap, x⟩ else .error (.valueError
          "Arguments must be z3 instances of Variable.")) := by
  intro gap x y
  refine ⟨?_, ?_, ?_, ?_, ?_, ?_, ?_, ?_, ?_, ?_, ?_⟩ <;>
    by_cases hx : isVariableSorted x <;>
    by_cases hy : isVariableSorted y <;>
    simp [Equal.mk', Labeled.mk', PreParent.mk', PostParent.mk',
      DoParent.mk', PreLink.mk', PostLink.mk', DoLink.mk', DoUnlink.mk',
      PreHas.mk', PostHas.mk', ensure_variable_eq, hx, hy]
